import Mathlib

/-!
Shallow embedding of `src/main.py`, the webhook-driven call-screening bot.

Modelling conventions:
  * Python `datetime.datetime.utcnow()` is modelled by an explicit `now : Nat`
    timestamp passed into each handler (seconds); call duration, computed in
    the source as `(end_time - answered_time).total_seconds()` and then
    formatted as a string, is modelled as the integer number of seconds.
  * Python `dict.get` on a possibly missing key yields `None`; such values are
    `Option String`/`Option Nat` here, and f-string interpolation of `None`
    (which prints the text `None`) is `pyStr`.
  * The global `active_calls` dict is an association list `Registry`; dict
    assignment/deletion are `regInsert`/`regErase`.  No handler observes dict
    iteration order, so `regInsert` normalises the position of the updated key.
  * Side effects (logging calls, Telnyx API requests, Google-Sheets appends,
    `time.sleep`, thread spawning) are reified as an `Act` trace returned
    by each handler next to the new registry and the HTTP response.
  * Collaborator outcomes (whether each outbound request succeeds, whether the
    sheets client is configured, whether an append succeeds) are oracle
    booleans in `Env`; `telnyx_api_request` never raises — it returns `none`
    on failure, exactly as the Python wrapper catches every exception.
  * Only the `POST` path of the `/webhooks/telnyx` route is modelled; the
    top-level `try`/`except` around JSON decoding is the `Except String`
    argument of `handle_telnyx_webhook`.
-/

/-- Python `str`/f-string rendering of a possibly-`None` string value. -/
def pyStr : Option String → String
  | none => "None"
  | some s => s

/-- Payload dict passed to `telnyx_api_request` at the four call sites. -/
structure TelnyxData where
  command_id : String
  webhook_url : Option String := none
  format : Option String := none
  channels : Option String := none
  payload : Option String := none
  voice : Option String := none
  language : Option String := none
deriving DecidableEq, Repr

/-- Data dict passed to `log_to_sheet`; `duration` is modelled numerically. -/
structure SheetData where
  call_id : Option String := none
  from_number : Option String := none
  to_number : Option String := none
  status : Option String := none
  duration : Option Int := none
  transcription : Option String := none
  result : Option String := none
deriving DecidableEq, Repr

/-- One entry of the `active_calls` dict, as built by `handle_incoming_call`
and mutated by the answered/hangup handlers.  `answered_time` and `end_time`
keys are absent until stamped, hence `Option`. -/
structure CallRecord where
  from_number : Option String
  to_number : Option String
  start_time : Nat
  status : String
  answered_time : Option Nat := none
  end_time : Option Nat := none
deriving DecidableEq, Repr

/-- Reified side effects of the handlers. -/
inductive Act where
  | logInfo (msg : String)
  | logWarning (msg : String)
  | logError (msg : String)
  | telnyxReq (method : String) (endpoint : String) (data : TelnyxData)
  | sheetAppend (data : SheetData)
  | wait (seconds : Nat)
  | spawnEndCall (call_id : Option String)
deriving DecidableEq, Repr

/-- HTTP response of the webhook endpoint: `('', 200)` or
`(jsonify(\x7b'error': e\x7d), 500)`. -/
inductive Resp where
  | ok200
  | err500 (error : String)
deriving DecidableEq, Repr

/-- The `active_calls` dict. -/
abbrev Registry := List (Option String × CallRecord)

/-- Dict membership / read: `active_calls[k]` guarded by `k in active_calls`. -/
def regLookup : Registry → Option String → Option CallRecord
  | [], _ => none
  | (k, v) :: rest, key => if k = key then some v else regLookup rest key

/-- Dict deletion `del active_calls[k]` (keys are unique in a Python dict, so
removing every pair with the key is the same operation). -/
def regErase : Registry → Option String → Registry
  | [], _ => []
  | (k, v) :: rest, key =>
      if k = key then regErase rest key else (k, v) :: regErase rest key

/-- Dict assignment `active_calls[k] = v` (overwrite or create). -/
def regInsert (R : Registry) (key : Option String) (v : CallRecord) : Registry :=
  regErase R key ++ [(key, v)]

/-- Number of registry entries stored under a key. -/
def countKey : Registry → Option String → Nat
  | [], _ => 0
  | (k, _) :: rest, key => (if k = key then 1 else 0) + countKey rest key

/-- Oracle for collaborator outcomes during one handler run. -/
structure Env where
  answerOk : Bool
  recordOk : Bool
  speakOk : Bool
  sheetsConfigured : Bool
  appendOk : Bool
deriving DecidableEq, Repr

/-- `log_to_sheet`: warn and skip when sheets are unconfigured, otherwise try
to append one row; a failure is caught and logged, never raised. -/
def log_to_sheet (sheetsConfigured appendOk : Bool) (data : SheetData) :
    List Act :=
  if !sheetsConfigured then
    [Act.logWarning "Google Sheets not configured"]
  else if appendOk then
    [Act.sheetAppend data, Act.logInfo "Logged to sheet"]
  else
    [Act.logError "Failed to log to sheet"]

/-- `telnyx_api_request`: issues the request; on any failure it logs the error
and returns `None` instead of raising. -/
def telnyx_api_request (ok : Bool) (method : String) (endpoint : String)
    (data : TelnyxData) : Option Unit × List Act :=
  if ok then
    (some (), [Act.telnyxReq method endpoint data])
  else
    (none, [Act.telnyxReq method endpoint data,
            Act.logError "Telnyx API error"])

/-- Decoded `data.payload` of a webhook event; every field is read with
`.get`, so each is optional. -/
structure CallData where
  call_control_id : Option String := none
  from_number : Option String := none
  to_number : Option String := none
  recording_mp3 : Option String := none
deriving DecidableEq, Repr

/-- `handle_incoming_call`: store a fresh ringing record, log the call to the
sheet, then try to answer it via the API. -/
def handle_incoming_call (d : CallData) (env : Env) (now : Nat) (R : Registry) :
    Registry × List Act × Resp :=
  let call_id := d.call_control_id
  let c := pyStr call_id
  let f := pyStr d.from_number
  let t := pyStr d.to_number
  let acts0 := [Act.logInfo ("Incoming call from " ++ f ++ " to " ++ t)]
  let R1 := regInsert R call_id
    { from_number := d.from_number, to_number := d.to_number,
      start_time := now, status := "ringing" }
  let acts1 := log_to_sheet env.sheetsConfigured env.appendOk
    { call_id := call_id, from_number := d.from_number,
      to_number := d.to_number, status := some "incoming" }
  let answer_data : TelnyxData :=
    { command_id := c,
      webhook_url :=
        some "https://flask-production-2806.up.railway.app/webhooks/telnyx" }
  let ans := telnyx_api_request env.answerOk "POST"
    ("/calls/" ++ c ++ "/actions/answer") answer_data
  let acts2 := match ans.1 with
    | some _ => [Act.logInfo ("Answered call " ++ c)]
    | none => [Act.logError ("Failed to answer call " ++ c)]
  (R1, acts0 ++ acts1 ++ ans.2 ++ acts2, Resp.ok200)

/-- The `end_call` closure spawned by `handle_call_answered`: sleep 30s, play
the goodbye message, sleep 5s, hang up; every failure is logged locally.  It
captures only `call_id` and never touches `active_calls` (its type shows it
takes no `Registry`). -/
def end_call (call_id : Option String) (goodbyeOk hangupOk : Bool) :
    List Act :=
  let c := pyStr call_id
  let speak_end : TelnyxData :=
    { command_id := c,
      payload := some
        "Thank you for your call. I\x27ll review your message and get back to you.",
      voice := some "female" }
  let goodbye := telnyx_api_request goodbyeOk "POST"
    ("/calls/" ++ c ++ "/actions/speak") speak_end
  let goodbyeActs := match goodbye.1 with
    | some _ =>
        [Act.logInfo ("Goodbye message played successfully for call " ++ c)]
    | none =>
        [Act.logError ("Failed to play goodbye message for call " ++ c)]
  let hangup_data : TelnyxData := { command_id := c }
  let hres := telnyx_api_request hangupOk "POST"
    ("/calls/" ++ c ++ "/actions/hangup") hangup_data
  let hangupActs := match hres.1 with
    | some _ => [Act.logInfo ("Call " ++ c ++ " hung up successfully")]
    | none => [Act.logError ("Failed to hang up call " ++ c)]
  [Act.logInfo ("Starting end_call thread for call " ++ c),
   Act.wait 30,
   Act.logInfo ("Playing goodbye message for call " ++ c)]
  ++ goodbye.2 ++ goodbyeActs
  ++ [Act.wait 5, Act.logInfo ("Hanging up call " ++ c)]
  ++ hres.2 ++ hangupActs

/-- `handle_call_answered`: stamp the record as answered when present (warn
otherwise), start recording, play the greeting, then spawn the `end_call`
thread; the whole tail is wrapped in `try`/`except`. -/
def handle_call_answered (d : CallData) (env : Env) (now : Nat) (R : Registry) :
    Registry × List Act × Resp :=
  let call_id := d.call_control_id
  let c := pyStr call_id
  let acts0 := [Act.logInfo ("Handling call answered for call_id: " ++ c)]
  let upd := match regLookup R call_id with
    | some r =>
        (regInsert R call_id
          { r with status := "answered", answered_time := some now },
         [Act.logInfo ("Updated active call status for " ++ c)])
    | none =>
        (R, [Act.logWarning ("Call " ++ c ++ " not found in active_calls")])
  let acts1 := [Act.logInfo ("Starting recording for call " ++ c)]
  let record_data : TelnyxData :=
    { command_id := c, format := some "mp3", channels := some "single" }
  let rres := telnyx_api_request env.recordOk "POST"
    ("/calls/" ++ c ++ "/actions/record_start") record_data
  let acts2 := match rres.1 with
    | some _ =>
        [Act.logInfo ("Recording started successfully for call " ++ c)]
    | none => [Act.logError ("Failed to start recording for call " ++ c)]
  let acts3 := [Act.logInfo ("Playing greeting for call " ++ c)]
  let speak_data : TelnyxData :=
    { command_id := c,
      payload := some
        "Hello, you\x27ve reached Anthony Barragan. Please state your name and reason for calling, and I\x27ll get back to you shortly.",
      voice := some "female", language := some "en-US" }
  let sres := telnyx_api_request env.speakOk "POST"
    ("/calls/" ++ c ++ "/actions/speak") speak_data
  let acts4 := match sres.1 with
    | some _ => [Act.logInfo ("Greeting played successfully for call " ++ c)]
    | none => [Act.logError ("Failed to play greeting for call " ++ c)]
  let acts5 := [Act.spawnEndCall call_id,
                Act.logInfo ("End call thread started for call " ++ c)]
  (upd.1,
   acts0 ++ upd.2 ++ acts1 ++ rres.2 ++ acts2 ++ acts3 ++ sres.2 ++ acts4
     ++ acts5,
   Resp.ok200)

/-- `handle_call_hangup`: when the record exists, stamp it ended, compute the
duration, log the completed row, and delete the record; when the record is
absent the handler does nothing and acknowledges. -/
def handle_call_hangup (d : CallData) (env : Env) (now : Nat) (R : Registry) :
    Registry × List Act × Resp :=
  let call_id := d.call_control_id
  match regLookup R call_id with
  | some r =>
      let r1 := { r with status := "ended", end_time := some now }
      let duration : Int := match r1.answered_time with
        | some a => (now : Int) - (a : Int)
        | none => 0
      let acts := log_to_sheet env.sheetsConfigured env.appendOk
        { call_id := call_id, from_number := r1.from_number,
          to_number := r1.to_number, status := some "completed",
          duration := some duration, result := some "recorded" }
      (regErase R call_id, acts, Resp.ok200)
  | none => (R, [], Resp.ok200)

/-- `handle_recording_saved`: log the recording URL; needs no registry entry. -/
def handle_recording_saved (d : CallData) (env : Env) (R : Registry) :
    Registry × List Act × Resp :=
  let call_id := d.call_control_id
  let c := pyStr call_id
  let u := pyStr d.recording_mp3
  let acts0 := [Act.logInfo ("Recording saved for call " ++ c ++ ": " ++ u)]
  let acts1 := log_to_sheet env.sheetsConfigured env.appendOk
    { call_id := call_id, status := some "recording_saved",
      transcription := some ("Recording URL: " ++ u) }
  (R, acts0 ++ acts1, Resp.ok200)

/-- Decoded webhook envelope: `data.event_type` and `data.payload`, both read
with `.get`. -/
structure Webhook where
  event_type : Option String := none
  payload : CallData := {}
deriving DecidableEq, Repr

/-- Dispatch of a successfully decoded event (the body of the `try` block in
`handle_telnyx_webhook`). -/
def handleEvent (w : Webhook) (env : Env) (now : Nat) (R : Registry) :
    Registry × List Act × Resp :=
  let e := w.event_type
  let base := [Act.logInfo ("Received event: " ++ pyStr e)]
  if e = some "call.initiated" then
    let res := handle_incoming_call w.payload env now R
    (res.1, base ++ [Act.logInfo "Handling incoming call..."] ++ res.2.1,
     res.2.2)
  else if e = some "call.answered" then
    let res := handle_call_answered w.payload env now R
    (res.1, base ++ [Act.logInfo "Handling call answered..."] ++ res.2.1,
     res.2.2)
  else if e = some "call.hangup" then
    let res := handle_call_hangup w.payload env now R
    (res.1, base ++ [Act.logInfo "Handling call hangup..."] ++ res.2.1,
     res.2.2)
  else if e = some "call.recording.saved" then
    let res := handle_recording_saved w.payload env R
    (res.1, base ++ [Act.logInfo "Handling recording saved..."] ++ res.2.1,
     res.2.2)
  else
    (R, base ++ [Act.logInfo ("Unhandled event type: " ++ pyStr e)],
     Resp.ok200)

/-- The POST path of `handle_telnyx_webhook`: a top-level decode failure is
caught by the outer `except` and surfaced as a 500 with the error text. -/
def handle_telnyx_webhook (decoded : Except String Webhook) (env : Env)
    (now : Nat) (R : Registry) : Registry × List Act × Resp :=
  match decoded with
  | Except.ok w => handleEvent w env now R
  | Except.error e => (R, [Act.logError ("Webhook error: " ++ e)],
                       Resp.err500 e)

/-- One handled webhook delivery: the decoded event, the collaborator oracle
for this delivery, and the wall-clock time at which it is handled. -/
structure StepInput where
  webhook : Webhook
  env : Env
  now : Nat

/-- Registry obtained by handling a sequence of decoded webhook events from
process start (empty `active_calls`). -/
def runEvents (evs : List StepInput) : Registry :=
  evs.foldl (fun R s => (handleEvent s.webhook s.env s.now R).1) []

/-- Rank of a status in the spec ordering Ringing < Answered < Ended. -/
def statusRank (s : String) : Nat :=
  if s = "ringing" then 0 else if s = "answered" then 1 else 2

/-- Recognises logging actions (which have no external effect). -/
def isLogAction : Act → Bool
  | Act.logInfo _ => true
  | Act.logWarning _ => true
  | Act.logError _ => true
  | _ => false

/-- Recognises outbound Telnyx API commands. -/
def isTelnyxReq : Act → Bool
  | Act.telnyxReq _ _ _ => true
  | _ => false

/-- Recognises the spawning of a Delayed Completion Task. -/
def isSpawn : Act → Bool
  | Act.spawnEndCall _ => true
  | _ => false

/-- Recognises sheet appends. -/
def isSheetAppend : Act → Bool
  | Act.sheetAppend _ => true
  | _ => false

/-! Registry lemmas. -/

/-- Lookup in an appended registry tries the left part first. -/
theorem regLookup_append (L M : Registry) (k : Option String) :
    regLookup (L ++ M) k =
      match regLookup L k with
      | some v => some v
      | none => regLookup M k := by
  induction L with
  | nil => rfl
  | cons p rest ih =>
      obtain ⟨k0, v0⟩ := p
      by_cases h : k0 = k <;> simp [regLookup, h, ih]

/-- Erasing a key removes it and leaves every other key unchanged. -/
theorem regLookup_erase (R : Registry) (k k' : Option String) :
    regLookup (regErase R k) k' = if k' = k then none else regLookup R k' := by
  induction R with
  | nil => simp [regErase, regLookup]
  | cons p rest ih =>
      obtain ⟨k0, v0⟩ := p
      by_cases h0 : k0 = k
      · subst h0
        rcases eq_or_ne k' k0 with h | h
        · subst h
          simp [regErase, regLookup, ih]
        · simp [regErase, regLookup, ih, h, Ne.symm h]
      · by_cases h1 : k0 = k'
        · subst h1
          simp [regErase, regLookup, h0]
        · simp [regErase, regLookup, h0, h1, ih]

/-- Inserting a key makes it the stored value and leaves other keys alone. -/
theorem regLookup_insert (R : Registry) (k : Option String) (v : CallRecord)
    (k' : Option String) :
    regLookup (regInsert R k v) k' = if k' = k then some v else regLookup R k' := by
  rw [regInsert, regLookup_append, regLookup_erase]
  rcases eq_or_ne k' k with h | h
  · simp [regLookup, h]
  · cases hR : regLookup R k' <;> simp [regLookup, h, Ne.symm h]

/-- Key counts add over registry concatenation. -/
theorem countKey_append (L M : Registry) (k : Option String) :
    countKey (L ++ M) k = countKey L k + countKey M k := by
  induction L with
  | nil => simp [countKey]
  | cons p rest ih =>
      obtain ⟨k0, v0⟩ := p
      simp [countKey, ih]
      omega

/-- Erasing a key leaves no entry under it. -/
theorem countKey_erase (R : Registry) (k : Option String) :
    countKey (regErase R k) k = 0 := by
  induction R with
  | nil => rfl
  | cons p rest ih =>
      obtain ⟨k0, v0⟩ := p
      by_cases h0 : k0 = k <;> simp [regErase, countKey, h0, ih]

/-- After an insert the key is stored exactly once. -/
theorem countKey_insert_self (R : Registry) (k : Option String) (v : CallRecord) :
    countKey (regInsert R k v) k = 1 := by
  simp [regInsert, countKey_append, countKey_erase, countKey]

/-- A successful lookup exhibits a registry member. -/
theorem regLookup_mem (R : Registry) (k : Option String) (v : CallRecord)
    (h : regLookup R k = some v) : (k, v) ∈ R := by
  induction R with
  | nil => simp [regLookup] at h
  | cons p rest ih =>
      obtain ⟨k0, v0⟩ := p
      by_cases h0 : k0 = k
      · subst h0
        simp [regLookup] at h
        simp [h]
      · simp [regLookup, h0] at h
        exact List.mem_cons_of_mem _ (ih h)

/-- Erasure only removes members. -/
theorem mem_of_mem_regErase (R : Registry) (k : Option String)
    (p : Option String × CallRecord) (h : p ∈ regErase R k) : p ∈ R := by
  induction R with
  | nil => simp [regErase] at h
  | cons q rest ih =>
      obtain ⟨k0, v0⟩ := q
      by_cases h0 : k0 = k
      · simp [regErase, h0] at h
        exact List.mem_cons_of_mem _ (ih h)
      · simp [regErase, h0] at h
        rcases h with h | h
        · simp [h]
        · exact List.mem_cons_of_mem _ (ih h)

/-! Per-handler projection lemmas. -/

/-- Registry after `handle_incoming_call`: the key is overwritten with a
fresh ringing record. -/
theorem incoming_reg (d : CallData) (env : Env) (now : Nat) (R : Registry) :
    (handle_incoming_call d env now R).1 =
      regInsert R d.call_control_id
        { from_number := d.from_number, to_number := d.to_number,
          start_time := now, status := "ringing" } := rfl

/-- Registry after `handle_call_answered`: the record, when present, is
re-stamped as answered; otherwise the registry is unchanged. -/
theorem answered_reg (d : CallData) (env : Env) (now : Nat) (R : Registry) :
    (handle_call_answered d env now R).1 =
      match regLookup R d.call_control_id with
      | some r =>
          regInsert R d.call_control_id
            { r with status := "answered", answered_time := some now }
      | none => R := by
  cases hq : regLookup R d.call_control_id <;> simp [handle_call_answered, hq]

/-- Registry after `handle_call_hangup`: the record, when present, is
removed; otherwise the registry is unchanged. -/
theorem hangup_reg (d : CallData) (env : Env) (now : Nat) (R : Registry) :
    (handle_call_hangup d env now R).1 =
      match regLookup R d.call_control_id with
      | some _ => regErase R d.call_control_id
      | none => R := by
  cases hq : regLookup R d.call_control_id <;> simp [handle_call_hangup, hq]

/-- `handle_call_hangup` always acknowledges with 200. -/
theorem hangup_resp (d : CallData) (env : Env) (now : Nat) (R : Registry) :
    (handle_call_hangup d env now R).2.2 = Resp.ok200 := by
  cases hq : regLookup R d.call_control_id <;> simp [handle_call_hangup, hq]

/-- `handle_call_answered` always acknowledges with 200. -/
theorem answered_resp (d : CallData) (env : Env) (now : Nat) (R : Registry) :
    (handle_call_answered d env now R).2.2 = Resp.ok200 := rfl

/-- Registry after dispatch, by event kind. -/
theorem handleEvent_reg (w : Webhook) (env : Env) (now : Nat) (R : Registry) :
    (handleEvent w env now R).1 =
      if w.event_type = some "call.initiated" then
        (handle_incoming_call w.payload env now R).1
      else if w.event_type = some "call.answered" then
        (handle_call_answered w.payload env now R).1
      else if w.event_type = some "call.hangup" then
        (handle_call_hangup w.payload env now R).1
      else R := by
  simp only [handleEvent]
  split_ifs <;> rfl

/-- Every successfully decoded event is acknowledged with 200, whatever the
collaborator outcomes. -/
theorem handleEvent_resp (w : Webhook) (env : Env) (now : Nat) (R : Registry) :
    (handleEvent w env now R).2.2 = Resp.ok200 := by
  simp only [handleEvent]
  split_ifs
  · rfl
  · exact answered_resp w.payload env now R
  · exact hangup_resp w.payload env now R
  · rfl
  · rfl

/-! Status invariant: every record stored in a reachable registry is ringing
or answered (a record is stamped ended only in the instant before its
deletion inside `handle_call_hangup`). -/

/-- All records in the registry have a pre-terminal status. -/
def liveStatuses (R : Registry) : Prop :=
  ∀ p ∈ R, p.2.status = "ringing" ∨ p.2.status = "answered"

/-- Insertion of a live record preserves the invariant. -/
theorem liveStatuses_regInsert (R : Registry) (k : Option String)
    (v : CallRecord) (h : liveStatuses R)
    (hv : v.status = "ringing" ∨ v.status = "answered") :
    liveStatuses (regInsert R k v) := by
  intro p hp
  rcases List.mem_append.mp hp with hp | hp
  · exact h p (mem_of_mem_regErase R k p hp)
  · simp at hp
    subst hp
    exact hv

/-- Erasure preserves the invariant. -/
theorem liveStatuses_regErase (R : Registry) (k : Option String)
    (h : liveStatuses R) : liveStatuses (regErase R k) :=
  fun p hp => h p (mem_of_mem_regErase R k p hp)

/-- Dispatching any decoded event preserves the invariant. -/
theorem liveStatuses_handleEvent (w : Webhook) (env : Env) (now : Nat)
    (R : Registry) (h : liveStatuses R) :
    liveStatuses (handleEvent w env now R).1 := by
  rw [handleEvent_reg]
  split_ifs
  · rw [incoming_reg]
    exact liveStatuses_regInsert R _ _ h (Or.inl rfl)
  · rw [answered_reg]
    cases hq : regLookup R w.payload.call_control_id with
    | none => exact h
    | some r => exact liveStatuses_regInsert R _ _ h (Or.inr rfl)
  · rw [hangup_reg]
    cases hq : regLookup R w.payload.call_control_id with
    | none => exact h
    | some r => exact liveStatuses_regErase R _ h
  · exact h

/-- The invariant holds of every registry reachable from process start. -/
theorem liveStatuses_runEvents (evs : List StepInput) :
    liveStatuses (runEvents evs) := by
  suffices h : ∀ R, liveStatuses R →
      liveStatuses (evs.foldl
        (fun R s => (handleEvent s.webhook s.env s.now R).1) R) by
    refine h [] ?_
    intro p hp
    simp at hp
  induction evs with
  | nil => intro R h; exact h
  | cons s rest ih =>
      intro R h
      exact ih _ (liveStatuses_handleEvent _ _ _ _ h)

/-- Core monotonicity step: any decoded event other than `call.initiated`
never lowers the status rank of a record that exists before and after the
event, provided every stored status is pre-terminal. -/
theorem handleEvent_status_mono (w : Webhook) (env : Env) (now : Nat)
    (R : Registry) (k : Option String) (r r' : CallRecord)
    (hlive : liveStatuses R)
    (hne : w.event_type ≠ some "call.initiated")
    (h1 : regLookup R k = some r)
    (h2 : regLookup (handleEvent w env now R).1 k = some r') :
    statusRank r.status ≤ statusRank r'.status := by
  rw [handleEvent_reg, if_neg hne] at h2
  by_cases ha : w.event_type = some "call.answered"
  · rw [if_pos ha] at h2
    rcases hq : regLookup R w.payload.call_control_id with _ | r0
    · simp only [answered_reg, hq] at h2
      rw [h1] at h2
      cases h2
      exact le_refl _
    · simp only [answered_reg, hq, regLookup_insert] at h2
      by_cases hk : k = w.payload.call_control_id
      · rw [if_pos hk] at h2
        cases h2
        have hr0 : r = r0 := by
          rw [hk, hq] at h1
          cases h1
          rfl
        have hmem := regLookup_mem R k r h1
        have hs' : r.status = "ringing" ∨ r.status = "answered" := hlive _ hmem
        rcases hs' with hs | hs <;> simp [statusRank, hs]
      · rw [if_neg hk, h1] at h2
        cases h2
        exact le_refl _
  · rw [if_neg ha] at h2
    by_cases hh : w.event_type = some "call.hangup"
    · rw [if_pos hh] at h2
      rcases hq : regLookup R w.payload.call_control_id with _ | r0
      · simp only [hangup_reg, hq] at h2
        rw [h1] at h2
        cases h2
        exact le_refl _
      · simp only [hangup_reg, hq, regLookup_erase] at h2
        by_cases hk : k = w.payload.call_control_id
        · rw [if_pos hk] at h2
          cases h2
        · rw [if_neg hk, h1] at h2
          cases h2
          exact le_refl _
    · rw [if_neg hh, h1] at h2
      cases h2
      exact le_refl _

/-! Concrete fixtures used by witnesses and counterexamples. -/

/-- All-success collaborator oracle. -/
def env0 : Env := ⟨true, true, true, true, true⟩

/-- Payload of the scenario call `c1`. -/
def dC1 : CallData :=
  { call_control_id := some "c1", from_number := some "+15551234567",
    to_number := some "+14807868280" }

/-- Payload carrying only an unknown call id. -/
def ghostD : CallData := { call_control_id := some "ghost" }

/-- Decoded initiated event for `c1`. -/
def wInit : Webhook := { event_type := some "call.initiated", payload := dC1 }

/-- Decoded answered event for `c1`. -/
def wAns : Webhook := { event_type := some "call.answered", payload := dC1 }

/-- Initiated for `c1` handled at time 0. -/
def s0 : StepInput := ⟨wInit, env0, 0⟩

/-- Answered for `c1` handled at time 1. -/
def s1 : StepInput := ⟨wAns, env0, 1⟩

/-- Duplicate answered for `c1` handled at time 2. -/
def s2 : StepInput := ⟨wAns, env0, 2⟩

/-- Duplicate initiated for `c1` handled at time 3. -/
def s3 : StepInput := ⟨wInit, env0, 3⟩

/-- The `c1` record right after the initiated event at time 0. -/
def rec0 : CallRecord :=
  { from_number := some "+15551234567", to_number := some "+14807868280",
    start_time := 0, status := "ringing" }

/-- The `c1` record right after the answered event at time 1. -/
def rec1 : CallRecord :=
  { rec0 with status := "answered", answered_time := some 1 }

/-! Claim theorems. -/

/-- C1 counterexample: the claim says no handled event may move an existing
record from Answered back to Ringing, but a duplicate `call.initiated` event
overwrites the `c1` record (answered at time 1) with a fresh ringing record,
a strict rank regression. -/
theorem C1_status_regression_counterexample :
    (regLookup (runEvents [s0, s1]) (some "c1")).map CallRecord.status
        = some "answered"
    ∧ (regLookup (runEvents [s0, s1, s3]) (some "c1")).map CallRecord.status
        = some "ringing"
    ∧ statusRank "ringing" < statusRank "answered" := by decide

/-- C1 amended: excluding `call.initiated` events (which unconditionally
install a fresh Ringing record, even over an Answered one), a record that
exists before and after a handled event never regresses in status: it only
advances along Ringing, Answered, Ended. -/
theorem C1_status_monotone_amended (pre : List StepInput) (s : StepInput)
    (k : Option String) (r r' : CallRecord)
    (hne : s.webhook.event_type ≠ some "call.initiated")
    (h1 : regLookup (runEvents pre) k = some r)
    (h2 : regLookup (runEvents (pre ++ [s])) k = some r') :
    statusRank r.status ≤ statusRank r'.status := by
  have hr : runEvents (pre ++ [s])
      = (handleEvent s.webhook s.env s.now (runEvents pre)).1 := by
    simp [runEvents, List.foldl_append]
  rw [hr] at h2
  exact handleEvent_status_mono s.webhook s.env s.now (runEvents pre) k r r'
    (liveStatuses_runEvents pre) hne h1 h2

/-- C1 witness: the amended theorem applied to the initiated-then-answered
scenario for `c1`. -/
theorem C1_status_monotone_amended_witness :
    statusRank rec0.status ≤ statusRank rec1.status :=
  C1_status_monotone_amended [s0] s1 (some "c1") rec0 rec1
    (by decide) (by decide) (by decide)

/-- C2 counterexample: the claim says a hangup for an absent call_id logs an
anomaly; in fact the handler emits no action at all (no log, no sink append),
leaves the registry unchanged, and acknowledges with 200. -/
theorem C2_hangup_counterexample :
    handle_call_hangup ghostD env0 5 [] = ([], [], Resp.ok200) := by decide

/-- C2 amended: handling a hangup always leaves the Registry without an entry
for the call_id and never errors; when the entry is absent the handler does
nothing at all — no log of any kind, no sink append, no registry change —
and still returns the 200 acknowledgment. -/
theorem C2_hangup_amended (d : CallData) (env : Env) (now : Nat)
    (R : Registry) :
    regLookup (handle_call_hangup d env now R).1 d.call_control_id = none
    ∧ (handle_call_hangup d env now R).2.2 = Resp.ok200
    ∧ (regLookup R d.call_control_id = none →
        (handle_call_hangup d env now R).1 = R
        ∧ (handle_call_hangup d env now R).2.1 = []) := by
  rcases hq : regLookup R d.call_control_id with _ | r
  · simp [handle_call_hangup, hq]
  · simp [handle_call_hangup, hq, regLookup_erase]

/-- C2 witness: the amended theorem applied to a ghost hangup on the empty
registry, with the absence hypothesis discharged concretely. -/
theorem C2_hangup_amended_witness :
    regLookup (handle_call_hangup ghostD env0 5 []).1 (some "ghost") = none
    ∧ (handle_call_hangup ghostD env0 5 []).1 = []
    ∧ (handle_call_hangup ghostD env0 5 []).2.1 = [] :=
  ⟨(C2_hangup_amended ghostD env0 5 []).1,
   (C2_hangup_amended ghostD env0 5 []).2.2 (by decide)⟩

/-- C3 counterexample: the claim says `answered_time` is set at most once,
but a duplicate answered event for `c1` overwrites the stamp from time 1
with time 2. -/
theorem C3_answered_time_counterexample :
    (regLookup (runEvents [s0, s1]) (some "c1")).map CallRecord.answered_time
        = some (some 1)
    ∧ (regLookup (runEvents [s0, s1, s2]) (some "c1")).map
          CallRecord.answered_time
        = some (some 2) := by decide

/-- C3 amended: every handled answered event whose call_id is present stamps
`answered_time` with the current time, overwriting any previous stamp (the
field is set on each answered delivery, not at most once). -/
theorem C3_answered_time_amended (d : CallData) (env : Env) (now : Nat)
    (R : Registry) (r : CallRecord)
    (h : regLookup R d.call_control_id = some r) :
    regLookup (handle_call_answered d env now R).1 d.call_control_id
      = some { r with status := "answered", answered_time := some now } := by
  simp [answered_reg, h, regLookup_insert]

/-- C3 witness: the amended theorem applied to the duplicate answered event
for `c1` at time 2. -/
theorem C3_answered_time_amended_witness :
    regLookup (handle_call_answered dC1 env0 2 (runEvents [s0, s1])).1
        (some "c1")
      = some { rec1 with status := "answered", answered_time := some 2 } :=
  C3_answered_time_amended dC1 env0 2 (runEvents [s0, s1]) rec1 (by decide)

/-- C4: after an initiated event the registry holds exactly one record under
the call_id — status ringing, from/to copied from the payload, start_time
stamped — the handler logs the incoming call, appends the "incoming" sink row
(when the sink is configured and working), and issues exactly one outbound
command: the answer command carrying the webhook callback address. -/
theorem C4_initiated_registry (d : CallData) (env : Env) (now : Nat)
    (R : Registry) :
    regLookup (handle_incoming_call d env now R).1 d.call_control_id
      = some { from_number := d.from_number, to_number := d.to_number,
               start_time := now, status := "ringing" }
    ∧ countKey (handle_incoming_call d env now R).1 d.call_control_id = 1
    ∧ Act.logInfo ("Incoming call from " ++ pyStr d.from_number ++ " to "
          ++ pyStr d.to_number)
        ∈ (handle_incoming_call d env now R).2.1
    ∧ (env.sheetsConfigured = true → env.appendOk = true →
        Act.sheetAppend
            { call_id := d.call_control_id, from_number := d.from_number,
              to_number := d.to_number, status := some "incoming" }
          ∈ (handle_incoming_call d env now R).2.1)
    ∧ (handle_incoming_call d env now R).2.1.filter isTelnyxReq
        = [Act.telnyxReq "POST"
            ("/calls/" ++ pyStr d.call_control_id ++ "/actions/answer")
            { command_id := pyStr d.call_control_id,
              webhook_url :=
                some "https://flask-production-2806.up.railway.app/webhooks/telnyx" }]
    ∧ (handle_incoming_call d env now R).2.2 = Resp.ok200 := by
  obtain ⟨ao, ro, so, cfg, ap⟩ := env
  refine ⟨?_, ?_, ?_, ?_, ?_, rfl⟩
  · rw [incoming_reg, regLookup_insert]
    simp
  · rw [incoming_reg]
    exact countKey_insert_self R _ _
  · cases ao <;> cases cfg <;> cases ap <;>
      simp [handle_incoming_call, log_to_sheet, telnyx_api_request]
  · intro h1 h2
    subst h1
    subst h2
    cases ao <;> simp [handle_incoming_call, log_to_sheet, telnyx_api_request]
  · cases ao <;> cases cfg <;> cases ap <;>
      simp [handle_incoming_call, log_to_sheet, telnyx_api_request, isTelnyxReq]

/-- C4 witness: the theorem applied at the concrete `c1` initiated event with
the sink configured, discharging the configuration hypotheses. -/
theorem C4_initiated_registry_witness :
    regLookup (handle_incoming_call dC1 env0 0 []).1 (some "c1") = some rec0
    ∧ Act.sheetAppend
        { call_id := some "c1", from_number := some "+15551234567",
          to_number := some "+14807868280", status := some "incoming" }
        ∈ (handle_incoming_call dC1 env0 0 []).2.1 :=
  ⟨(C4_initiated_registry dC1 env0 0 []).1,
   (C4_initiated_registry dC1 env0 0 []).2.2.2.1 rfl rfl⟩

/-- C5: every sink row appended by a hangup whose call_id is registered is a
"completed" row whose duration is end_time minus answered_time (in seconds)
when the call was answered, and 0 when it never was. -/
theorem C5_hangup_duration (d : CallData) (env : Env) (now : Nat)
    (R : Registry) (r : CallRecord) (row : SheetData)
    (hr : regLookup R d.call_control_id = some r)
    (hrow : Act.sheetAppend row ∈ (handle_call_hangup d env now R).2.1) :
    row.status = some "completed"
    ∧ row.duration = some (match r.answered_time with
        | some a => (now : Int) - (a : Int)
        | none => 0) := by
  obtain ⟨ao, ro, so, cfg, ap⟩ := env
  cases cfg <;> cases ap <;>
    simp [handle_call_hangup, hr, log_to_sheet] at hrow
  subst hrow
  exact ⟨rfl, rfl⟩

/-- C5 witness: the theorem applied to the hangup of `c1` at time 5 after it
was answered at time 1, exhibiting the appended row with duration 4. -/
theorem C5_hangup_duration_witness :
    ({ call_id := some "c1", from_number := some "+15551234567",
       to_number := some "+14807868280", status := some "completed",
       duration := some 4, result := some "recorded" } : SheetData).status
        = some "completed"
    ∧ ({ call_id := some "c1", from_number := some "+15551234567",
         to_number := some "+14807868280", status := some "completed",
         duration := some 4, result := some "recorded" } : SheetData).duration
        = some 4 :=
  C5_hangup_duration dC1 env0 5 [(some "c1", rec1)] rec1
    { call_id := some "c1", from_number := some "+15551234567",
      to_number := some "+14807868280", status := some "completed",
      duration := some 4, result := some "recorded" }
    (by decide) (by decide)

/-- C6 counterexample: a well-formed envelope whose initiated payload is
missing every required field (no call_control_id, from, to) is not rejected
with a 500 — the handler acknowledges it with 200 and even stores a record
under the `None` key. -/
theorem C6_decode_counterexample :
    (handle_telnyx_webhook
        (Except.ok { event_type := some "call.initiated", payload := {} })
        env0 0 []).2.2 = Resp.ok200
    ∧ regLookup (handle_telnyx_webhook
        (Except.ok { event_type := some "call.initiated", payload := {} })
        env0 0 []).1 none
      = some { from_number := none, to_number := none, start_time := 0,
               status := "ringing" } := by decide

/-- C6 amended: only a top-level decode failure produces the 500 error
response; a successfully decoded event is always acknowledged with 200, even
when required payload fields are missing (they degrade to `None` values). -/
theorem C6_decode_amended (env : Env) (now : Nat) (R : Registry) (e : String)
    (w : Webhook) :
    (handle_telnyx_webhook (Except.error e) env now R).2.2 = Resp.err500 e
    ∧ (handle_telnyx_webhook (Except.ok w) env now R).2.2 = Resp.ok200 :=
  ⟨rfl, handleEvent_resp w env now R⟩

/-- C7 counterexample: the claim says an answered event for an unknown
call_id is tolerated with best-effort partial state creation, but the handler
creates no state at all — the registry is left exactly empty. -/
theorem C7_answered_missing_counterexample :
    (handle_call_answered ghostD env0 3 []).1 = [] := by decide

/-- C7 amended: an answered event whose call_id is absent does not crash: it
logs the anomaly, leaves the registry completely unchanged (no partial state
is created), and still issues the record-start and speak-greeting commands
before acknowledging with 200. -/
theorem C7_answered_missing_amended (d : CallData) (env : Env) (now : Nat)
    (R : Registry) (h : regLookup R d.call_control_id = none) :
    (handle_call_answered d env now R).1 = R
    ∧ Act.logWarning ("Call " ++ pyStr d.call_control_id
          ++ " not found in active_calls")
        ∈ (handle_call_answered d env now R).2.1
    ∧ Act.telnyxReq "POST"
        ("/calls/" ++ pyStr d.call_control_id ++ "/actions/record_start")
        { command_id := pyStr d.call_control_id, format := some "mp3",
          channels := some "single" }
        ∈ (handle_call_answered d env now R).2.1
    ∧ Act.telnyxReq "POST"
        ("/calls/" ++ pyStr d.call_control_id ++ "/actions/speak")
        { command_id := pyStr d.call_control_id,
          payload := some
            "Hello, you\x27ve reached Anthony Barragan. Please state your name and reason for calling, and I\x27ll get back to you shortly.",
          voice := some "female", language := some "en-US" }
        ∈ (handle_call_answered d env now R).2.1
    ∧ (handle_call_answered d env now R).2.2 = Resp.ok200 := by
  obtain ⟨ao, ro, so, cfg, ap⟩ := env
  refine ⟨?_, ?_, ?_, ?_, rfl⟩
  · simp [answered_reg, h]
  · cases ro <;> cases so <;> simp [handle_call_answered, h, telnyx_api_request]
  · cases ro <;> cases so <;> simp [handle_call_answered, h, telnyx_api_request]
  · cases ro <;> cases so <;> simp [handle_call_answered, h, telnyx_api_request]

/-- C7 witness: the amended theorem applied to an answered event for the
unknown call_id "ghost" on the empty registry. -/
theorem C7_answered_missing_amended_witness :
    (handle_call_answered ghostD env0 3 []).1 = []
    ∧ Act.logWarning ("Call " ++ pyStr ghostD.call_control_id
          ++ " not found in active_calls")
        ∈ (handle_call_answered ghostD env0 3 []).2.1 :=
  ⟨(C7_answered_missing_amended ghostD env0 3 [] (by decide)).1,
   (C7_answered_missing_amended ghostD env0 3 [] (by decide)).2.1⟩

/-- C8: the Delayed Completion Task, once spawned for a call_id, performs
exactly: wait 30 time units, issue one speak-closing-message command for that
call_id, wait 5 time units, issue one hangup command for the same call_id —
whatever the outcome of either command.  `end_call` takes no `Registry` and
returns only an action trace, so it can neither read nor mutate the Call
Registry, and it is total, so no failure surfaces to a caller. -/
theorem C8_end_call_sequence (call_id : Option String)
    (goodbyeOk hangupOk : Bool) :
    (end_call call_id goodbyeOk hangupOk).filter (fun a => !isLogAction a) =
      [Act.wait 30,
       Act.telnyxReq "POST" ("/calls/" ++ pyStr call_id ++ "/actions/speak")
         { command_id := pyStr call_id,
           payload := some
             "Thank you for your call. I\x27ll review your message and get back to you.",
           voice := some "female" },
       Act.wait 5,
       Act.telnyxReq "POST" ("/calls/" ++ pyStr call_id ++ "/actions/hangup")
         { command_id := pyStr call_id }] := by
  cases goodbyeOk <;> cases hangupOk <;>
    simp [end_call, telnyx_api_request, isLogAction]

/-- C9: every answered event spawns exactly one Delayed Completion Task bound
to the event's call_id — whether or not the call_id is registered, and
whatever the outcome of the record-start and speak-greeting commands. -/
theorem C9_spawn_unconditional (d : CallData) (env : Env) (now : Nat)
    (R : Registry) :
    (handle_call_answered d env now R).2.1.filter isSpawn
      = [Act.spawnEndCall d.call_control_id] := by
  obtain ⟨ao, ro, so, cfg, ap⟩ := env
  cases hq : regLookup R d.call_control_id <;> cases ro <;> cases so <;>
    simp [handle_call_answered, hq, telnyx_api_request, isSpawn]

/-- C10: for every successfully decoded event, no collaborator failure
propagates past the handler — whatever the collaborator oracle says (every
Telnyx call failing, the sink unconfigured or failing), the dispatcher still
returns the 200 acknowledgment. -/
theorem C10_collaborator_failure_ack (w : Webhook) (env : Env) (now : Nat)
    (R : Registry) :
    (handle_telnyx_webhook (Except.ok w) env now R).2.2 = Resp.ok200 :=
  handleEvent_resp w env now R
